import Mathlib

/-!
Shallow embedding of the msgboard client (src/web/app.js and the variants in
src/unnamed/part_000): the XSS-escaping helper, the post-list renderer, the
presigned-upload submission flow, and the prepend-one-post optimization.

Network effects are modelled by an environment record carrying each endpoint's
response; a submission evaluates to an outcome record listing, in order, the
external calls of the submission chain (presign, object-storage upload,
post registration), the alerts shown, the final form state, whether the list
was refetched or a post was prepended, and the submit button's final state.
The post-success list refresh (app.js line 98, `await getPosts()`) is a UI
update step, modelled separately by `getPostsRun`, matching the spec's flow
decomposition "... register post → update UI".
-/

namespace Msgboard

/-- A post as served by the backend:
`{ id, message, image_url (nullable), created_at }` (app.js line 23). -/
structure Post where
  id : Int
  message : String
  image_url : Option String
  created_at : String
deriving Repr, DecidableEq

/-- JS truthiness of a nullable string (`p.image_url ? _ : ""`, app.js line
27): `null` and the empty string are falsy. -/
def jsTruthy (o : Option String) : Bool :=
  !(o.getD "").isEmpty

/-- The substitution table of `preventXSS` (app.js lines 6-14): the five
characters `& < > " '` map to their fixed entities; other characters are not
matched by the regex `/[&<>"']/g`. Characters are given by code point to keep
the table readable next to the source: 38 `&`, 60 `<`, 62 `>`, 34 `"`, 39 `'`. -/
def xssTable (c : Char) : Option String :=
  if c = Char.ofNat 38 then some "&amp;"
  else if c = Char.ofNat 60 then some "&lt;"
  else if c = Char.ofNat 62 then some "&gt;"
  else if c = Char.ofNat 34 then some "&quot;"
  else if c = Char.ofNat 39 then some "&#39;"
  else none

/-- One character's contribution to the replaced string: the table entry when
the regex matches, the character itself otherwise. -/
def escChar (c : Char) : String :=
  (xssTable c).getD (String.singleton c)

/-- `preventXSS` (app.js lines 6-14): `s.replace(/[&<>"']/g, m => table[m])`.
A global single-character-class replace maps each character of the input
independently and concatenates the results. -/
def preventXSS (s : String) : String :=
  String.join (s.data.map escChar)

/-- The `<img>` fragment of a rendered post block (app.js line 27):
present exactly when `p.image_url` is truthy, with the url interpolated
verbatim. -/
def imgFragment (p : Post) : String :=
  if jsTruthy p.image_url then
    "<img src=\"" ++ p.image_url.getD "" ++ "\" alt=\"image\">"
  else ""

/-- One rendered post block (the template literal of app.js lines 24-30):
the message goes through `preventXSS`; `image_url`, `id` and `created_at`
are interpolated verbatim. -/
def renderPost (p : Post) : String :=
  "\n    <div class=\"post\">\n      <h3>" ++ preventXSS p.message
    ++ "</h3>\n      " ++ imgFragment p
    ++ "\n      <div class=\"meta\">#" ++ toString p.id ++ " · "
    ++ p.created_at ++ "</div>\n    </div>\n  "

/-- Response of `GET /api/posts` as seen by `getPosts`: the `ok` flag and,
when ok, the parsed `data` array. -/
structure FetchResp where
  ok : Bool
  data : List Post
deriving Repr, DecidableEq

/-- The fixed placeholder written on a failed fetch (app.js line 19). -/
def fetchFailHTML : String :=
  "<div class=\"post\">無法取得貼文</div>"

/-- Result of one `getPosts()` run: how many fetches the function issued and
the final `list.innerHTML`. -/
structure GetPostsResult where
  fetchCount : Nat
  listHTML : String
deriving Repr, DecidableEq

/-- `getPosts` (app.js lines 16-31): one fetch; on a non-ok response the list
is replaced by the fixed placeholder and the function returns; on success the
list is replaced by the concatenation of one rendered block per post, in
response order (`json.data.map(...).join("")`). -/
def getPostsRun (resp : FetchResp) : GetPostsResult :=
  if resp.ok then
    ⟨1, String.join (resp.data.map renderPost)⟩
  else
    ⟨1, fetchFailHTML⟩

/-- The file selected in the image input (`input.files[0]`, app.js line 71):
original name, declared MIME type, byte size. -/
structure File where
  name : String
  type : String
  size : Nat
deriving Repr, DecidableEq

/-- Body of `POST /api/presign` (app.js lines 38-42): exactly the keys
`filename`, `content_type`, `size`. -/
structure PresignBody where
  filename : String
  content_type : String
  size : Nat
deriving Repr, DecidableEq

/-- The presign request body built from the file (app.js lines 38-42):
`filename: file.name`, `content_type: file.type || "application/octet-stream"`,
`size: file.size`. -/
def mkPresignBody (f : File) : PresignBody :=
  { filename := f.name
  , content_type := if f.type.isEmpty then "application/octet-stream" else f.type
  , size := f.size }

/-- The upload descriptor returned by the presign endpoint:
`{ url, fields, key }` (spec section 3); `fields` is kept as a key-value list
in its `Object.entries` order. -/
structure PresignData where
  url : String
  fields : List (String × String)
  key : String
deriving Repr, DecidableEq

/-- A multipart form-data value: a plain string field or the file body. -/
inductive FormValue where
  | str (v : String)
  | file (f : File)
deriving Repr, DecidableEq

/-- The multipart body sent to object storage (uploadToS3, app.js lines
52-56): every entry of `presignData.fields` appended in order, unmodified,
then the file itself under the fixed field name `"file"`. -/
def s3FormData (pd : PresignData) (f : File) : List (String × FormValue) :=
  pd.fields.map (fun kv => (kv.1, FormValue.str kv.2)) ++ [("file", FormValue.file f)]

/-- Body of the registration request `POST /api/posts` (app.js lines 89-92):
`{ message, image_key }`, with `image_key` null when no file was uploaded. -/
structure RegisterBody where
  message : String
  image_key : Option String
deriving Repr, DecidableEq

/-- One external call of the submission chain, in the order issued. -/
inductive Call where
  | presignReq (body : PresignBody)
  | s3Upload (url : String) (formData : List (String × FormValue))
  | registerReq (body : RegisterBody)
deriving Repr, DecidableEq

/-- The environment's responses for one submission attempt: the presign
endpoint's answer (error text on non-ok, app.js line 45), whether the
object-storage upload response was ok and its status code (app.js line 63),
and the registration endpoint's answer (error text on non-ok, app.js line 95;
the created post's JSON on success, used by the prepend variant,
part_000 lines 155-158). -/
structure Env where
  presignResp : Except String PresignData
  uploadOk : Bool
  uploadStatus : Nat
  registerResp : Except String Post
deriving Repr

/-- The form's user-visible input state: the message textarea and the file
selection. `form.reset()` returns both to empty (app.js line 97). -/
structure FormState where
  messageText : String
  fileSel : Option File
deriving Repr, DecidableEq

/-- Outcome of one submit-handler run: the submission-chain calls in order,
the alert texts shown, the final form state, whether the success path
refetched the list (app.js line 98) or prepended posts (part_000 line 158),
and whether the submit button is enabled after the `finally` block. -/
structure SubmitOutcome where
  calls : List Call
  alerts : List String
  finalForm : FormState
  refetched : Bool
  prepended : List Post
  btnEnabled : Bool
deriving Repr, DecidableEq

/-- Alert text of the catch block (app.js line 100): `"上傳失敗: " + err.message`. -/
def failAlert (e : String) : String :=
  "上傳失敗: " ++ e

/-- Error message thrown on a non-ok storage upload (app.js line 63):
`` `上傳到 S3 失敗: ${r.status}` ``. -/
def s3FailMsg (status : Nat) : String :=
  "上傳到 S3 失敗: " ++ toString status

/-- Outcome of a thrown error reaching the catch/finally blocks (app.js lines
99-103): one alert, form untouched, no UI update, button re-enabled. -/
def failOutcome (calls : List Call) (e : String) (form : FormState) : SubmitOutcome :=
  { calls := calls, alerts := [failAlert e], finalForm := form
  , refetched := false, prepended := [], btnEnabled := true }

/-- The registration step of the refetch variant (app.js lines 86-98): POST
the body, throw the response text on non-ok, else reset the form and refetch
the list. -/
def registerRefetch (message : String) (image_key : Option String)
    (calls : List Call) (form : FormState) (env : Env) : SubmitOutcome :=
  let calls2 := calls ++ [Call.registerReq ⟨message, image_key⟩]
  match env.registerResp with
  | Except.error e => failOutcome calls2 e form
  | Except.ok _ =>
      { calls := calls2, alerts := [], finalForm := ⟨"", none⟩
      , refetched := true, prepended := [], btnEnabled := true }

/-- The registration step of the prepend variant (part_000 lines 146-160):
POST the body, throw the response text on non-ok, else prepend the returned
post and reset the form. -/
def registerPrepend (message : String) (image_key : Option String)
    (calls : List Call) (form : FormState) (env : Env) : SubmitOutcome :=
  let calls2 := calls ++ [Call.registerReq ⟨message, image_key⟩]
  match env.registerResp with
  | Except.error e => failOutcome calls2 e form
  | Except.ok newPost =>
      { calls := calls2, alerts := [], finalForm := ⟨"", none⟩
      , refetched := false, prepended := [newPost], btnEnabled := true }

/-- The submit handler of the refetch variant (app.js lines 67-104): trim the
message, disable the button; if a file is selected run presign then the
storage upload, aborting to the catch block on either failure; then register
the post (`image_key` null without a file). -/
def submitRefetch (form : FormState) (env : Env) : SubmitOutcome :=
  let message := form.messageText.trim
  match form.fileSel with
  | none => registerRefetch message none [] form env
  | some f =>
      let calls1 := [Call.presignReq (mkPresignBody f)]
      match env.presignResp with
      | Except.error e => failOutcome calls1 e form
      | Except.ok pd =>
          let calls2 := calls1 ++ [Call.s3Upload pd.url (s3FormData pd f)]
          if env.uploadOk then
            registerRefetch message (some pd.key) calls2 form env
          else
            failOutcome calls2 (s3FailMsg env.uploadStatus) form

/-- The submit handler of the prepend variant (part_000 lines 126-166): same
chain as the refetch variant, but on success the created post returned by the
registration call is prepended instead of refetching. -/
def submitPrepend (form : FormState) (env : Env) : SubmitOutcome :=
  let message := form.messageText.trim
  match form.fileSel with
  | none => registerPrepend message none [] form env
  | some f =>
      let calls1 := [Call.presignReq (mkPresignBody f)]
      match env.presignResp with
      | Except.error e => failOutcome calls1 e form
      | Except.ok pd =>
          let calls2 := calls1 ++ [Call.s3Upload pd.url (s3FormData pd f)]
          if env.uploadOk then
            registerPrepend message (some pd.key) calls2 form env
          else
            failOutcome calls2 (s3FailMsg env.uploadStatus) form

/-- The rendered list state and `prependPost` (part_000 lines 62-72): the
list's blocks, newest first. -/
structure ListView where
  blocks : List String
deriving Repr, DecidableEq

/-- `prependPost(post)` (part_000 lines 62-72): build the block for the one
post and `insertAdjacentHTML("afterbegin", html)` — the new view plus the
list of fetches the function issued (its body performs no fetch). -/
def prependPostRun (post : Post) (lv : ListView) : ListView × List Call :=
  (⟨renderPost post :: lv.blocks⟩, [])

/-- `insertAdjacentHTML("afterbegin", html)` at the innerHTML-string level:
the new block's markup is placed before the existing markup. -/
def prependPostHTML (post : Post) (oldHTML : String) : String :=
  renderPost post ++ oldHTML

/-! ## Spec-side definitions and sample data -/

/-- Modelled from the spec's substitution table for claim C2: the five
characters `& < > " '` (code points 38, 60, 62, 34, 39) become their fixed
entities and every other character is left unchanged. Stated independently of
`xssTable` so the code's escaping can be compared against it. -/
def escSpecChar (c : Char) : String :=
  if c = Char.ofNat 38 then "&amp;"
  else if c = Char.ofNat 60 then "&lt;"
  else if c = Char.ofNat 62 then "&gt;"
  else if c = Char.ofNat 34 then "&quot;"
  else if c = Char.ofNat 39 then "&#39;"
  else String.singleton c

/-- Sample post used by concrete witnesses. -/
def postA : Post := ⟨1, "hello", none, "2024-01-01"⟩

/-- Second sample post used by concrete witnesses. -/
def postB : Post := ⟨2, "world", some "https://cdn/x.png", "2024-01-02"⟩

/-- Sample file with a declared MIME type. -/
def fileA : File := ⟨"cat.png", "image/png", 123⟩

/-- Sample file whose declared MIME type is empty. -/
def fileB : File := ⟨"blob.bin", "", 7⟩

/-- Sample upload descriptor. -/
def pdA : PresignData :=
  ⟨"https://bucket.s3/", [("key", "uploads/cat.png"), ("policy", "abc")], "uploads/cat.png"⟩

/-! ## Helper lemmas on the submission flow -/

lemma escChar_eq_escSpecChar (c : Char) : escChar c = escSpecChar c := by
  unfold escChar xssTable escSpecChar
  split_ifs <;> rfl

lemma submitRefetch_presign_err (form : FormState) (env : Env) (f : File) (e : String)
    (hf : form.fileSel = some f) (he : env.presignResp = Except.error e) :
    submitRefetch form env = failOutcome [Call.presignReq (mkPresignBody f)] e form := by
  simp [submitRefetch, hf, he]

lemma submitRefetch_upload_fail (form : FormState) (env : Env) (f : File) (pd : PresignData)
    (hf : form.fileSel = some f) (hp : env.presignResp = Except.ok pd)
    (hu : env.uploadOk = false) :
    submitRefetch form env =
      failOutcome [Call.presignReq (mkPresignBody f), Call.s3Upload pd.url (s3FormData pd f)]
        (s3FailMsg env.uploadStatus) form := by
  simp [submitRefetch, hf, hp, hu]

lemma submitRefetch_upload_ok (form : FormState) (env : Env) (f : File) (pd : PresignData)
    (hf : form.fileSel = some f) (hp : env.presignResp = Except.ok pd)
    (hu : env.uploadOk = true) :
    submitRefetch form env =
      registerRefetch form.messageText.trim (some pd.key)
        [Call.presignReq (mkPresignBody f), Call.s3Upload pd.url (s3FormData pd f)] form env := by
  simp [submitRefetch, hf, hp, hu]

lemma submitRefetch_no_file (form : FormState) (env : Env)
    (hf : form.fileSel = none) :
    submitRefetch form env = registerRefetch form.messageText.trim none [] form env := by
  simp [submitRefetch, hf]

lemma registerRefetch_err (message : String) (image_key : Option String)
    (calls : List Call) (form : FormState) (env : Env) (e : String)
    (hr : env.registerResp = Except.error e) :
    registerRefetch message image_key calls form env =
      failOutcome (calls ++ [Call.registerReq ⟨message, image_key⟩]) e form := by
  simp [registerRefetch, hr]

lemma registerRefetch_ok (message : String) (image_key : Option String)
    (calls : List Call) (form : FormState) (env : Env) (p : Post)
    (hr : env.registerResp = Except.ok p) :
    registerRefetch message image_key calls form env =
      { calls := calls ++ [Call.registerReq ⟨message, image_key⟩], alerts := []
      , finalForm := ⟨"", none⟩, refetched := true, prepended := []
      , btnEnabled := true } := by
  simp [registerRefetch, hr]

lemma submitPrepend_presign_err (form : FormState) (env : Env) (f : File) (e : String)
    (hf : form.fileSel = some f) (he : env.presignResp = Except.error e) :
    submitPrepend form env = failOutcome [Call.presignReq (mkPresignBody f)] e form := by
  simp [submitPrepend, hf, he]

lemma submitPrepend_upload_fail (form : FormState) (env : Env) (f : File) (pd : PresignData)
    (hf : form.fileSel = some f) (hp : env.presignResp = Except.ok pd)
    (hu : env.uploadOk = false) :
    submitPrepend form env =
      failOutcome [Call.presignReq (mkPresignBody f), Call.s3Upload pd.url (s3FormData pd f)]
        (s3FailMsg env.uploadStatus) form := by
  simp [submitPrepend, hf, hp, hu]

lemma submitPrepend_upload_ok (form : FormState) (env : Env) (f : File) (pd : PresignData)
    (hf : form.fileSel = some f) (hp : env.presignResp = Except.ok pd)
    (hu : env.uploadOk = true) :
    submitPrepend form env =
      registerPrepend form.messageText.trim (some pd.key)
        [Call.presignReq (mkPresignBody f), Call.s3Upload pd.url (s3FormData pd f)] form env := by
  simp [submitPrepend, hf, hp, hu]

lemma submitPrepend_no_file (form : FormState) (env : Env)
    (hf : form.fileSel = none) :
    submitPrepend form env = registerPrepend form.messageText.trim none [] form env := by
  simp [submitPrepend, hf]

lemma registerPrepend_err (message : String) (image_key : Option String)
    (calls : List Call) (form : FormState) (env : Env) (e : String)
    (hr : env.registerResp = Except.error e) :
    registerPrepend message image_key calls form env =
      failOutcome (calls ++ [Call.registerReq ⟨message, image_key⟩]) e form := by
  simp [registerPrepend, hr]

lemma registerPrepend_ok (message : String) (image_key : Option String)
    (calls : List Call) (form : FormState) (env : Env) (p : Post)
    (hr : env.registerResp = Except.ok p) :
    registerPrepend message image_key calls form env =
      { calls := calls ++ [Call.registerReq ⟨message, image_key⟩], alerts := []
      , finalForm := ⟨"", none⟩, refetched := false, prepended := [p]
      , btnEnabled := true } := by
  simp [registerPrepend, hr]

lemma strAppend_assoc (a b c : String) : a ++ b ++ c = a ++ (b ++ c) := by
  apply String.ext
  simp [String.data_append]

lemma strJoin_cons (s : String) (l : List String) :
    String.join (s :: l) = s ++ String.join l := by
  apply String.ext
  simp [String.join_eq, String.data_append]

lemma renderPost_head (p : Post) :
    (renderPost p).data.head? = some (Char.ofNat 10) := by
  unfold renderPost
  have h1 : ("\n    <div class=\"post\">\n      <h3>" : String).data
      = Char.ofNat 10 :: ("    <div class=\"post\">\n      <h3>" : String).data := rfl
  simp only [String.data_append, List.append_assoc, h1, List.cons_append, List.head?_cons]

lemma registerRefetch_btn (m : String) (k : Option String) (c : List Call)
    (form : FormState) (env : Env) :
    (registerRefetch m k c form env).btnEnabled = true := by
  unfold registerRefetch
  cases env.registerResp <;> rfl

lemma registerPrepend_btn (m : String) (k : Option String) (c : List Call)
    (form : FormState) (env : Env) :
    (registerPrepend m k c form env).btnEnabled = true := by
  unfold registerPrepend
  cases env.registerResp <;> rfl

lemma submitRefetch_btn (form : FormState) (env : Env) :
    (submitRefetch form env).btnEnabled = true := by
  unfold submitRefetch
  cases form.fileSel with
  | none => exact registerRefetch_btn _ _ _ _ _
  | some f =>
      cases env.presignResp with
      | error e => rfl
      | ok pd =>
          cases env.uploadOk
          · rfl
          · exact registerRefetch_btn _ _ _ _ _

lemma submitPrepend_btn (form : FormState) (env : Env) :
    (submitPrepend form env).btnEnabled = true := by
  unfold submitPrepend
  cases form.fileSel with
  | none => exact registerPrepend_btn _ _ _ _ _
  | some f =>
      cases env.presignResp with
      | error e => rfl
      | ok pd =>
          cases env.uploadOk
          · rfl
          · exact registerPrepend_btn _ _ _ _ _

lemma submitRefetch_calls_head (form : FormState) (env : Env) (f : File)
    (hf : form.fileSel = some f) :
    (submitRefetch form env).calls.head? = some (Call.presignReq (mkPresignBody f)) := by
  cases hp : env.presignResp with
  | error e => rw [submitRefetch_presign_err form env f e hf hp]; rfl
  | ok pd =>
      cases hu : env.uploadOk
      · rw [submitRefetch_upload_fail form env f pd hf hp hu]; rfl
      · rw [submitRefetch_upload_ok form env f pd hf hp hu]
        cases hr : env.registerResp with
        | error e => rw [registerRefetch_err _ _ _ _ _ _ hr]; rfl
        | ok p => rw [registerRefetch_ok _ _ _ _ _ _ hr]; rfl

/-! ## Claim theorems -/

/-- C2: `preventXSS` replaces every occurrence of each of the five characters
`& < > " '` with its fixed entity (`&amp; &lt; &gt; &quot; &#39;`) and leaves
every other character unchanged, as stated by the spec-side table
`escSpecChar`; in particular a message containing a script tag or quote
characters is escaped character-for-character in the output. -/
theorem preventXSS_matches_substitution_table :
    (∀ s : String, preventXSS s = String.join (s.data.map escSpecChar))
    ∧ preventXSS "<script>alert('x')</script>"
        = "&lt;script&gt;alert(&#39;x&#39;)&lt;/script&gt;"
    ∧ preventXSS "a&b\"c" = "a&amp;b&quot;c" := by
  refine ⟨?_, by decide, by decide⟩
  intro s
  unfold preventXSS
  have h : escChar = escSpecChar := funext escChar_eq_escSpecChar
  rw [h]

/-- C5: on a successful fetch of N posts, `getPosts` replaces the list with
the concatenation of one rendered block per post, the block list has length
N, and its i-th block is the rendering of the i-th post of the response
array — server order preserved. -/
theorem getPosts_renders_in_order (resp : FetchResp) (h : resp.ok = true) :
    (getPostsRun resp).listHTML = String.join (resp.data.map renderPost)
    ∧ (resp.data.map renderPost).length = resp.data.length
    ∧ ∀ i : Nat, (resp.data.map renderPost)[i]? = (resp.data[i]?).map renderPost := by
  refine ⟨by simp [getPostsRun, h], List.length_map _ _, ?_⟩
  intro i
  simp

/-- Witness for C5 at a concrete two-post response. -/
theorem getPosts_renders_in_order_witness :
    (getPostsRun ⟨true, [postA, postB]⟩).listHTML
      = String.join ([postA, postB].map renderPost)
    ∧ ([postA, postB].map renderPost)[0]? = some (renderPost postA) := by
  have h := getPosts_renders_in_order ⟨true, [postA, postB]⟩ rfl
  exact ⟨h.1, h.2.2 0⟩

/-- C8: on a non-success fetch, `getPosts` replaces the list with the fixed
"unable to fetch" placeholder, issues exactly one fetch (no retry), and the
placeholder is not the rendering of any post block. -/
theorem getPosts_failure_placeholder (resp : FetchResp) (h : resp.ok = false) :
    getPostsRun resp = ⟨1, fetchFailHTML⟩
    ∧ (getPostsRun resp).fetchCount = 1
    ∧ ∀ p : Post, fetchFailHTML ≠ renderPost p := by
  refine ⟨by simp [getPostsRun, h], by simp [getPostsRun, h], ?_⟩
  intro p heq
  have h2 := renderPost_head p
  rw [← heq] at h2
  exact absurd h2 (by decide)

/-- Witness for C8 at a concrete failed response. -/
theorem getPosts_failure_placeholder_witness :
    getPostsRun ⟨false, [postA]⟩ = ⟨1, fetchFailHTML⟩
    ∧ fetchFailHTML ≠ renderPost postA := by
  have h := getPosts_failure_placeholder ⟨false, [postA]⟩ rfl
  exact ⟨h.1, h.2.2 postA⟩

/-- C9: `prependPost` inserts exactly one rendered block for the given post
at the front of the list, issues no fetch, and leaves every previously
rendered block unchanged and in its former relative order; at the
innerHTML-string level the new block's markup precedes the old markup. -/
theorem prependPost_inserts_front_no_fetch (p : Post) (lv : ListView) :
    (prependPostRun p lv).1.blocks = renderPost p :: lv.blocks
    ∧ (prependPostRun p lv).2 = []
    ∧ (prependPostRun p lv).1.blocks.length = lv.blocks.length + 1
    ∧ (prependPostRun p lv).1.blocks.tail = lv.blocks
    ∧ ∀ blocks : List String,
        prependPostHTML p (String.join blocks) = String.join (renderPost p :: blocks) := by
  refine ⟨rfl, rfl, by simp [prependPostRun], rfl, ?_⟩
  intro blocks
  rw [strJoin_cons]
  rfl

/-- Sample form with a file selected. -/
def formA : FormState := ⟨" hi ", some fileA⟩

/-- Sample form with no file selected. -/
def formB : FormState := ⟨"hello", none⟩

/-- Sample environment where every step succeeds. -/
def envA : Env := ⟨Except.ok pdA, true, 204, Except.ok postA⟩

/-- Sample environment where the presign request fails. -/
def envPresignErr : Env := ⟨Except.error "boom", true, 204, Except.ok postA⟩

/-- Sample environment where the storage upload fails with status 403. -/
def envUploadErr : Env := ⟨Except.ok pdA, false, 403, Except.ok postA⟩

/-- Sample environment where the registration request fails. -/
def envRegErr : Env := ⟨Except.ok pdA, true, 204, Except.error "db down"⟩

/-- C1: with a file selected the submission chain is presign, then the
object-storage upload — whose multipart body is every key-value pair of the
descriptor's `fields` in order, unmodified, plus the file under the fixed
field name `"file"` — then registration, in that order; if presign fails only
the presign call happened, and if the upload fails the registration is never
issued. -/
theorem submit_with_file_three_calls_in_order
    (form : FormState) (env : Env) (f : File) (hf : form.fileSel = some f) :
    (∀ e, env.presignResp = Except.error e →
        (submitRefetch form env).calls = [Call.presignReq (mkPresignBody f)])
    ∧ (∀ pd, env.presignResp = Except.ok pd → env.uploadOk = false →
        (submitRefetch form env).calls =
          [Call.presignReq (mkPresignBody f),
           Call.s3Upload pd.url
             (pd.fields.map (fun kv => (kv.1, FormValue.str kv.2))
               ++ [("file", FormValue.file f)])])
    ∧ (∀ pd, env.presignResp = Except.ok pd → env.uploadOk = true →
        (submitRefetch form env).calls =
          [Call.presignReq (mkPresignBody f),
           Call.s3Upload pd.url
             (pd.fields.map (fun kv => (kv.1, FormValue.str kv.2))
               ++ [("file", FormValue.file f)]),
           Call.registerReq ⟨form.messageText.trim, some pd.key⟩]
        ∧ ∀ kv ∈ pd.fields, (kv.1, FormValue.str kv.2) ∈ s3FormData pd f) := by
  refine ⟨?_, ?_, ?_⟩
  · intro e he
    rw [submitRefetch_presign_err form env f e hf he]
    rfl
  · intro pd hp hu
    rw [submitRefetch_upload_fail form env f pd hf hp hu]
    rfl
  · intro pd hp hu
    constructor
    · rw [submitRefetch_upload_ok form env f pd hf hp hu]
      cases hr : env.registerResp with
      | error e => rw [registerRefetch_err _ _ _ _ _ _ hr]; rfl
      | ok p => rw [registerRefetch_ok _ _ _ _ _ _ hr]; rfl
    · intro kv hkv
      exact List.mem_append_left _ (List.mem_map_of_mem _ hkv)

/-- Witness for C1: the full three-call chain at a concrete all-success run. -/
theorem submit_with_file_three_calls_in_order_witness :
    (submitRefetch formA envA).calls =
      [Call.presignReq (mkPresignBody fileA),
       Call.s3Upload pdA.url
         (pdA.fields.map (fun kv => (kv.1, FormValue.str kv.2))
           ++ [("file", FormValue.file fileA)]),
       Call.registerReq ⟨formA.messageText.trim, some pdA.key⟩] :=
  ((submit_with_file_three_calls_in_order formA envA fileA rfl).2.2 pdA rfl rfl).1

/-- C3: with no file selected the submission issues only the registration
request, whose body carries `image_key = null`, and neither the presign
endpoint nor the storage-upload endpoint is ever called. -/
theorem submit_no_file_registers_null_key
    (form : FormState) (env : Env) (hf : form.fileSel = none) :
    (submitRefetch form env).calls = [Call.registerReq ⟨form.messageText.trim, none⟩]
    ∧ ∀ c ∈ (submitRefetch form env).calls,
        (∀ b, c ≠ Call.presignReq b) ∧ ∀ u fd, c ≠ Call.s3Upload u fd := by
  have h1 : (submitRefetch form env).calls
      = [Call.registerReq ⟨form.messageText.trim, none⟩] := by
    rw [submitRefetch_no_file form env hf]
    cases hr : env.registerResp with
    | error e => rw [registerRefetch_err _ _ _ _ _ _ hr]; rfl
    | ok p => rw [registerRefetch_ok _ _ _ _ _ _ hr]; rfl
  refine ⟨h1, ?_⟩
  intro c hc
  rw [h1] at hc
  have hce : c = Call.registerReq ⟨form.messageText.trim, none⟩ := by
    simpa using hc
  subst hce
  exact ⟨fun b h => Call.noConfusion h, fun u fd h => Call.noConfusion h⟩

/-- Witness for C3 at a concrete no-file submission. -/
theorem submit_no_file_registers_null_key_witness :
    (submitRefetch formB envA).calls
      = [Call.registerReq ⟨formB.messageText.trim, none⟩] :=
  (submit_no_file_registers_null_key formB envA rfl).1

/-- Counterexample for C6 as stated: for a file whose declared MIME type is
the empty string, the presign body's `content_type` is not the file's
declared type (the code substitutes `"application/octet-stream"`). -/
theorem presign_content_type_counterexample :
    (mkPresignBody fileB).content_type ≠ fileB.type := by
  decide

/-- C6 (amended): the presign request body holds exactly `filename`,
`content_type` and `size`, where `filename` is the file's name, `size` its
byte size, and `content_type` is the file's declared MIME type when that is
non-empty and `"application/octet-stream"` otherwise; this body is what the
first call of a with-file submission carries. -/
theorem presign_body_fields (f : File) (form : FormState) (env : Env) :
    (mkPresignBody f).filename = f.name
    ∧ (mkPresignBody f).size = f.size
    ∧ (f.type ≠ "" → (mkPresignBody f).content_type = f.type)
    ∧ (f.type = "" → (mkPresignBody f).content_type = "application/octet-stream")
    ∧ (form.fileSel = some f →
        (submitRefetch form env).calls.head? = some (Call.presignReq (mkPresignBody f))) := by
  refine ⟨rfl, rfl, ?_, ?_, ?_⟩
  · intro h
    simp [mkPresignBody, String.isEmpty_iff, h]
  · intro h
    simp [mkPresignBody, String.isEmpty_iff, h]
  · intro hf
    exact submitRefetch_calls_head form env f hf

/-- Witness for C6 (amended): concrete files with non-empty and empty
declared MIME types, and the concrete first call of a with-file run. -/
theorem presign_body_fields_witness :
    (mkPresignBody fileA).content_type = fileA.type
    ∧ (mkPresignBody fileB).content_type = "application/octet-stream"
    ∧ (submitRefetch formA envA).calls.head?
        = some (Call.presignReq (mkPresignBody fileA)) := by
  refine ⟨(presign_body_fields fileA formA envA).2.2.1 (by decide),
    (presign_body_fields fileB formA envA).2.2.2.1 rfl,
    (presign_body_fields fileA formA envA).2.2.2.2 rfl⟩

lemma failAlert_decomp (e : String) : ∃ a b, failAlert e = a ++ e ++ b := by
  refine ⟨"上傳失敗: ", "", ?_⟩
  apply String.ext
  simp [failAlert, String.data_append]

lemma prepend_count_one (p : Post) (old : List String) (h : renderPost p ∉ old) :
    ((prependPostRun p ⟨old⟩).1.blocks).count (renderPost p) = 1 := by
  show ((renderPost p :: old).count (renderPost p)) = 1
  rw [List.count_cons_self]
  simp [List.count_eq_zero.2 h]

/-- C4: at whichever step a failure occurs (presign, storage upload, or
registration) no subsequent step executes, exactly one alert is shown whose
text contains the failure's message text, and the submit button is enabled
again after the handler on every path, success included, in both variants. -/
theorem submit_failure_alerts_and_reenables (form : FormState) (env : Env) (f : File) :
    (submitRefetch form env).btnEnabled = true
    ∧ (submitPrepend form env).btnEnabled = true
    ∧ (∀ e, form.fileSel = some f → env.presignResp = Except.error e →
        (submitRefetch form env).calls = [Call.presignReq (mkPresignBody f)]
        ∧ (submitRefetch form env).alerts = [failAlert e]
        ∧ ∃ a b, failAlert e = a ++ e ++ b)
    ∧ (∀ pd, form.fileSel = some f → env.presignResp = Except.ok pd →
        env.uploadOk = false →
        (submitRefetch form env).calls
          = [Call.presignReq (mkPresignBody f), Call.s3Upload pd.url (s3FormData pd f)]
        ∧ (submitRefetch form env).alerts = [failAlert (s3FailMsg env.uploadStatus)]
        ∧ ∃ a b, failAlert (s3FailMsg env.uploadStatus)
            = a ++ s3FailMsg env.uploadStatus ++ b)
    ∧ (∀ e, env.registerResp = Except.error e →
        (form.fileSel = none ∨ ∃ pd, env.presignResp = Except.ok pd ∧ env.uploadOk = true) →
        (submitRefetch form env).alerts = [failAlert e]
        ∧ (submitRefetch form env).refetched = false
        ∧ (submitRefetch form env).finalForm = form
        ∧ ∃ a b, failAlert e = a ++ e ++ b) := by
  refine ⟨submitRefetch_btn form env, submitPrepend_btn form env, ?_, ?_, ?_⟩
  · intro e hf he
    rw [submitRefetch_presign_err form env f e hf he]
    exact ⟨rfl, rfl, failAlert_decomp e⟩
  · intro pd hf hp hu
    rw [submitRefetch_upload_fail form env f pd hf hp hu]
    exact ⟨rfl, rfl, failAlert_decomp _⟩
  · intro e hr hok
    cases hfs : form.fileSel with
    | none =>
        rw [submitRefetch_no_file form env hfs, registerRefetch_err _ _ _ _ _ _ hr]
        exact ⟨rfl, rfl, rfl, failAlert_decomp e⟩
    | some g =>
        rcases hok with hnone | ⟨pd, hp, hu⟩
        · rw [hfs] at hnone
          exact absurd hnone (by simp)
        · rw [submitRefetch_upload_ok form env g pd hfs hp hu,
            registerRefetch_err _ _ _ _ _ _ hr]
          exact ⟨rfl, rfl, rfl, failAlert_decomp e⟩

/-- Witness for C4 at concrete presign-failure and registration-failure runs. -/
theorem submit_failure_alerts_and_reenables_witness :
    (submitRefetch formA envPresignErr).btnEnabled = true
    ∧ (submitRefetch formA envPresignErr).alerts = [failAlert "boom"]
    ∧ (submitRefetch formA envPresignErr).calls
        = [Call.presignReq (mkPresignBody fileA)]
    ∧ (submitRefetch formB envRegErr).alerts = [failAlert "db down"]
    ∧ (submitRefetch formA envUploadErr).alerts = [failAlert (s3FailMsg 403)] := by
  have h1 := submit_failure_alerts_and_reenables formA envPresignErr fileA
  have h2 := submit_failure_alerts_and_reenables formB envRegErr fileA
  have h3 := submit_failure_alerts_and_reenables formA envUploadErr fileA
  exact ⟨h1.1, (h1.2.2.1 "boom" rfl rfl).2.1, (h1.2.2.1 "boom" rfl rfl).1,
    (h2.2.2.2.2 "db down" rfl (Or.inl rfl)).1,
    (h3.2.2.2.1 pdA rfl rfl rfl).2.1⟩

/-- C7: when every performed step succeeds, the form's message text and file
selection end empty and the new post is shown — the refetch variant performs
the full list refresh, the prepend variant prepends the created post exactly
once, with no alert; a prepended block not already present appears exactly
once in the resulting list. -/
theorem submit_success_clears_form_and_shows_post
    (form : FormState) (env : Env) (p : Post)
    (hreg : env.registerResp = Except.ok p)
    (hok : form.fileSel = none
      ∨ ∃ pd, env.presignResp = Except.ok pd ∧ env.uploadOk = true) :
    (submitRefetch form env).finalForm = ⟨"", none⟩
    ∧ (submitRefetch form env).refetched = true
    ∧ (submitRefetch form env).alerts = []
    ∧ (submitPrepend form env).finalForm = ⟨"", none⟩
    ∧ (submitPrepend form env).prepended = [p]
    ∧ (submitPrepend form env).alerts = []
    ∧ ∀ old : List String, renderPost p ∉ old →
        (prependPostRun p ⟨old⟩).1.blocks = renderPost p :: old
        ∧ ((prependPostRun p ⟨old⟩).1.blocks).count (renderPost p) = 1 := by
  have hmain :
      (submitRefetch form env).finalForm = ⟨"", none⟩
      ∧ (submitRefetch form env).refetched = true
      ∧ (submitRefetch form env).alerts = []
      ∧ (submitPrepend form env).finalForm = ⟨"", none⟩
      ∧ (submitPrepend form env).prepended = [p]
      ∧ (submitPrepend form env).alerts = [] := by
    cases hfs : form.fileSel with
    | none =>
        rw [submitRefetch_no_file form env hfs, registerRefetch_ok _ _ _ _ _ p hreg,
          submitPrepend_no_file form env hfs, registerPrepend_ok _ _ _ _ _ p hreg]
        exact ⟨rfl, rfl, rfl, rfl, rfl, rfl⟩
    | some g =>
        rcases hok with hnone | ⟨pd, hp, hu⟩
        · rw [hfs] at hnone
          exact absurd hnone (by simp)
        · rw [submitRefetch_upload_ok form env g pd hfs hp hu,
            registerRefetch_ok _ _ _ _ _ p hreg,
            submitPrepend_upload_ok form env g pd hfs hp hu,
            registerPrepend_ok _ _ _ _ _ p hreg]
          exact ⟨rfl, rfl, rfl, rfl, rfl, rfl⟩
  refine ⟨hmain.1, hmain.2.1, hmain.2.2.1, hmain.2.2.2.1, hmain.2.2.2.2.1,
    hmain.2.2.2.2.2, ?_⟩
  intro old hmem
  exact ⟨rfl, prepend_count_one p old hmem⟩

/-- Witness for C7 at a concrete all-success run. -/
theorem submit_success_clears_form_and_shows_post_witness :
    (submitRefetch formA envA).finalForm = ⟨"", none⟩
    ∧ (submitPrepend formA envA).prepended = [postA]
    ∧ (prependPostRun postA ⟨[]⟩).1.blocks = [renderPost postA] := by
  have h := submit_success_clears_form_and_shows_post formA envA postA rfl
    (Or.inr ⟨pdA, rfl, rfl⟩)
  exact ⟨h.1, h.2.2.2.2.1, (h.2.2.2.2.2.2 [] (by simp)).1⟩

/-- Sample post whose `image_url` contains markup-significant characters. -/
def postC : Post := ⟨7, "m", some "x\"><script>alert(1)</script>", "t"⟩

/-- C10: only the message goes through the escaping function — `image_url`,
`id` and `created_at` are interpolated into the block verbatim; in
particular, for a post whose `image_url` contains markup, the rendered
output contains that markup unescaped. -/
theorem render_interpolates_verbatim (p : Post) :
    (jsTruthy p.image_url = true →
      ∃ a b, renderPost p = a ++ p.image_url.getD "" ++ b)
    ∧ (∃ a b, renderPost p = a ++ p.created_at ++ b)
    ∧ (∃ a b, renderPost p = a ++ toString p.id ++ b)
    ∧ ∃ a b, renderPost postC = a ++ "<script>alert(1)</script>" ++ b := by
  refine ⟨?_, ?_, ?_, ?_⟩
  · intro h
    refine ⟨"\n    <div class=\"post\">\n      <h3>" ++ preventXSS p.message
        ++ "</h3>\n      " ++ "<img src=\"",
      "\" alt=\"image\">" ++ ("\n      <div class=\"meta\">#" ++ toString p.id
        ++ " · " ++ p.created_at ++ "</div>\n    </div>\n  "), ?_⟩
    apply String.ext
    simp [renderPost, imgFragment, h, String.data_append]
  · refine ⟨"\n    <div class=\"post\">\n      <h3>" ++ preventXSS p.message
        ++ "</h3>\n      " ++ imgFragment p ++ "\n      <div class=\"meta\">#"
        ++ toString p.id ++ " · ", "</div>\n    </div>\n  ", ?_⟩
    apply String.ext
    simp [renderPost, String.data_append]
  · refine ⟨"\n    <div class=\"post\">\n      <h3>" ++ preventXSS p.message
        ++ "</h3>\n      " ++ imgFragment p ++ "\n      <div class=\"meta\">#",
      " · " ++ (p.created_at ++ "</div>\n    </div>\n  "), ?_⟩
    apply String.ext
    simp [renderPost, String.data_append]
  · refine ⟨"\n    <div class=\"post\">\n      <h3>" ++ preventXSS postC.message
        ++ "</h3>\n      " ++ "<img src=\"" ++ "x\">",
      "\" alt=\"image\">" ++ ("\n      <div class=\"meta\">#" ++ toString postC.id
        ++ " · " ++ postC.created_at ++ "</div>\n    </div>\n  "), ?_⟩
    decide

/-- Witness for C10 at the concrete post with markup in its `image_url`. -/
theorem render_interpolates_verbatim_witness :
    (∃ a b, renderPost postC = a ++ postC.image_url.getD "" ++ b)
    ∧ ∃ a b, renderPost postC = a ++ "<script>alert(1)</script>" ++ b := by
  have h := render_interpolates_verbatim postC
  exact ⟨h.1 (by decide), h.2.2.2⟩

end Msgboard
